import Mathlib

/-!
Verification development for the data_insights repository: a shallow
embedding of its data model (frontend `api.types.ts`), the Redux session
and chart slices (`sessionSlice.ts`), the API endpoint builders
(`services/config.ts`), the client-side upload gate (`FileUploader`),
and spec-modelled versions of the backend pipeline components
(CSVIngestor, SeriesAligner, StatisticsEngine, ChartSpecBuilder) whose
code is not part of the frontend sources.
Numbers are embedded as `ℚ` (JavaScript numbers on the value ranges the
pipeline handles behave as exact rationals), day offsets as `ℤ`.
-/

namespace DataInsights

/-- Chart type enum from `api.types.ts` (`LINE = 'line'`, `CUMULATIVE = 'cumulative'`). -/
inductive ChartType where
  | line
  | cumulative
deriving DecidableEq, Repr

/-- One data series, from `SeriesData` in `api.types.ts`: `name`, `x_values`
(day offsets), `y_values` (nullable numbers), `count_stat` (the spec's
`defined_mask`), optional `color`, and a `visible` flag. -/
structure SeriesData where
  name : String
  x_values : List ℤ
  y_values : List (Option ℚ)
  count_stat : List Bool
  color : Option String
  visible : Bool
deriving DecidableEq, Repr

/-- Percentile sequences aligned with the master timeline, from
`StatisticsData` in `api.types.ts`; a `none` slot means the percentile is
undefined (no data) at that timeline point. -/
structure StatisticsData where
  p10 : List (Option ℚ)
  p50 : List (Option ℚ)
  p90 : List (Option ℚ)
deriving DecidableEq, Repr

/-- A fully processed session record, from `ProcessedData` in `api.types.ts`. -/
structure ProcessedData where
  session_id : String
  series : List SeriesData
  statistics : StatisticsData
  original_filename : String
  created_at : String
deriving DecidableEq, Repr

/-- Per-series visibility/color override, from `SeriesConfig` in `api.types.ts`. -/
structure SeriesConfig where
  name : String
  visible : Bool
  color : Option String
deriving DecidableEq, Repr

/-- Chart generation request, from `ChartConfig` in `api.types.ts`. -/
structure ChartConfig where
  session_id : String
  chart_type : ChartType
  show_legend : Bool
  show_defined_points : Bool
  show_p10 : Bool
  show_p50 : Bool
  show_p90 : Bool
  series_config : Option (List SeriesConfig)
deriving DecidableEq, Repr

/-! ## Session slice (`store/slices/sessionSlice.ts`) -/

/-- The session slice state (`SessionState` in `sessionSlice.ts`). -/
structure SessionState where
  sessionId : Option String
  processedData : Option ProcessedData
  isUploading : Bool
  uploadError : Option String
deriving DecidableEq, Repr

/-- The slice's `initialState`. -/
def initialSessionState : SessionState :=
  { sessionId := none
    processedData := none
    isUploading := false
    uploadError := none }

/-- Replace the first element satisfying `p` by its image under `f`; the
functional reading of `array.find(...)` followed by an in-place field
assignment on the found element. -/
def updateFirst (p : α → Bool) (f : α → α) : List α → List α
  | [] => []
  | a :: as => if p a then f a :: as else a :: updateFirst p f as

/-- Reducer `setSessionId`. -/
def setSessionId (st : SessionState) (v : Option String) : SessionState :=
  { st with sessionId := v }

/-- Reducer `setProcessedData`. -/
def setProcessedData (st : SessionState) (v : Option ProcessedData) : SessionState :=
  { st with processedData := v }

/-- Replace the series list of a `ProcessedData` record. -/
def withSeries (d : ProcessedData) (l : List SeriesData) : ProcessedData :=
  { d with series := l }

/-- Set the `visible` field of a series. -/
def setVisible (v : Bool) (s : SeriesData) : SeriesData :=
  { s with visible := v }

/-- Set the `color` field of a series. -/
def setColor (c : String) (s : SeriesData) : SeriesData :=
  { s with color := some c }

/-- Reducer `updateSeriesVisibility`: if data is present, find the series
with the payload's name and set its `visible` flag; no-op otherwise. -/
def updateSeriesVisibility (st : SessionState) (seriesName : String) (visible : Bool) :
    SessionState :=
  match st.processedData with
  | none => st
  | some d =>
      { st with processedData := some (withSeries d
          (updateFirst (fun s => s.name = seriesName) (setVisible visible) d.series)) }

/-- Reducer `updateSeriesColor`: if data is present, find the series with
the payload's name and set its `color`; no-op otherwise. -/
def updateSeriesColor (st : SessionState) (seriesName : String) (color : String) :
    SessionState :=
  match st.processedData with
  | none => st
  | some d =>
      { st with processedData := some (withSeries d
          (updateFirst (fun s => s.name = seriesName) (setColor color) d.series)) }

/-- Reducer `resetSession`. -/
def resetSession (st : SessionState) : SessionState :=
  { st with sessionId := none, processedData := none, uploadError := none }

/-- The actions the session slice handles, reducers and extra reducers
alike; `deleteSessionPending` and `deleteSessionRejected` have no
registered case in `extraReducers` and act as the identity. -/
inductive SessionAction where
  | actSetSessionId (v : Option String)
  | actSetProcessedData (v : Option ProcessedData)
  | actUpdateSeriesVisibility (seriesName : String) (visible : Bool)
  | actUpdateSeriesColor (seriesName : String) (color : String)
  | actResetSession
  | uploadFilePending
  | uploadFileFulfilled (sid : String) (d : ProcessedData)
  | uploadFileRejected (err : String)
  | deleteSessionPending
  | deleteSessionFulfilled
  | deleteSessionRejected (err : String)

/-- The session slice's whole reducer, case-for-case from
`sessionSlice.ts` (reducers plus `extraReducers`). -/
def sessionReduce (st : SessionState) : SessionAction → SessionState
  | .actSetSessionId v => setSessionId st v
  | .actSetProcessedData v => setProcessedData st v
  | .actUpdateSeriesVisibility n v => updateSeriesVisibility st n v
  | .actUpdateSeriesColor n c => updateSeriesColor st n c
  | .actResetSession => resetSession st
  | .uploadFilePending => { st with isUploading := true, uploadError := none }
  | .uploadFileFulfilled sid d =>
      { st with isUploading := false, sessionId := some sid,
                processedData := some d, uploadError := none }
  | .uploadFileRejected err => { st with isUploading := false, uploadError := some err }
  | .deleteSessionPending => st
  | .deleteSessionFulfilled =>
      { st with sessionId := none, processedData := none, uploadError := none }
  | .deleteSessionRejected _ => st

/-- States of the session slice reachable from `initialState` by
dispatching any sequence of its actions. -/
inductive ReachableSession : SessionState → Prop where
  | init : ReachableSession initialSessionState
  | step {st : SessionState} (a : SessionAction) :
      ReachableSession st → ReachableSession (sessionReduce st a)

/-! ## Chart slice (`store/slices/chartSlice.ts`) -/

/-- Chart display settings (`ChartSettings` in `chartSlice.ts`). -/
structure ChartSettings where
  showLegend : Bool
  showDefinedPoints : Bool
  showP10 : Bool
  showP50 : Bool
  showP90 : Bool
  chartType : ChartType
deriving DecidableEq, Repr

/-- A JavaScript record value: a string or a number. -/
inductive JsValue where
  | str (s : String)
  | num (q : ℚ)
deriving DecidableEq, Repr

/-- One rendered trace (`ChartData` in `chartSlice.ts`). -/
structure ChartData where
  line : List (String × JsValue)
  name : String
  mode : String
  type : String
  x : List ℚ
  y : List ℚ
deriving DecidableEq, Repr

/-- The `hovermode` union in `ChartLayout`: `false`, one of five string
literals, or `undefined`. -/
inductive Hovermode where
  | off
  | x
  | y
  | closest
  | xUnified
  | yUnified
  | undef
deriving DecidableEq, Repr

/-- Rendered-chart layout (`ChartLayout` in `chartSlice.ts`). -/
structure ChartLayout where
  height : ℚ
  width : ℚ
  hovermode : Hovermode
  title : List (String × String)
  xaxis : List (String × String)
  yaxis : List (String × String)
deriving DecidableEq, Repr

/-- Rendered chart: traces plus layout (`ChartAllData` in `chartSlice.ts`). -/
structure ChartAllData where
  data : List ChartData
  layout : ChartLayout
deriving DecidableEq, Repr

/-- Fixed colors for the percentile overlays (`statisticsColors`). -/
structure StatisticsColors where
  p10 : String
  p50 : String
  p90 : String
deriving DecidableEq, Repr

/-- The chart slice state (`ChartState` in `chartSlice.ts`). -/
structure ChartState where
  chartData : Option ChartAllData
  chartConfig : Option ChartConfig
  settings : ChartSettings
  statisticsColors : Option StatisticsColors
  isGenerating : Bool
  generateError : Option String
deriving DecidableEq, Repr

/-- Replace the settings of a chart state. -/
def withSettings (st : ChartState) (s : ChartSettings) : ChartState :=
  { st with settings := s }

/-- Reducer `toggleLegend`. -/
def toggleLegend (st : ChartState) : ChartState :=
  withSettings st { st.settings with showLegend := !st.settings.showLegend }

/-- Reducer `toggleDefinedPoints`. -/
def toggleDefinedPoints (st : ChartState) : ChartState :=
  withSettings st { st.settings with showDefinedPoints := !st.settings.showDefinedPoints }

/-- Reducer `toggleP10`. -/
def toggleP10 (st : ChartState) : ChartState :=
  withSettings st { st.settings with showP10 := !st.settings.showP10 }

/-- Reducer `toggleP50`. -/
def toggleP50 (st : ChartState) : ChartState :=
  withSettings st { st.settings with showP50 := !st.settings.showP50 }

/-- Reducer `toggleP90`. -/
def toggleP90 (st : ChartState) : ChartState :=
  withSettings st { st.settings with showP90 := !st.settings.showP90 }

/-! ## API endpoint builders (`services/config.ts`) -/

/-- The versioned prefix `API_VERSION`. -/
def API_VERSION : String := "/api/v1"

namespace API_ENDPOINTS

/-- Endpoint `UPLOAD`. -/
def UPLOAD : String := API_VERSION ++ "/upload/"

/-- Endpoint builder `DATA`. -/
def DATA (sessionId : String) : String := API_VERSION ++ "/data/" ++ sessionId

/-- Endpoint `CHART_GENERATE`. -/
def CHART_GENERATE : String := API_VERSION ++ "/chart/generate"

/-- Endpoint builder `CHART_PREVIEW`. -/
def CHART_PREVIEW (sessionId : String) : String := API_VERSION ++ "/chart/preview/" ++ sessionId

/-- Endpoint builder `EXPORT`. -/
def EXPORT (sessionId : String) : String := API_VERSION ++ "/export/" ++ sessionId

/-- Endpoint builder `EXPORT_CSV`. -/
def EXPORT_CSV (sessionId : String) : String := API_VERSION ++ "/export/csv/" ++ sessionId

/-- Endpoint builder `EXPORT_HTML`. -/
def EXPORT_HTML (sessionId : String) : String := API_VERSION ++ "/export/html/" ++ sessionId

/-- Endpoint builder `SESSION_DELETE`. -/
def SESSION_DELETE (sessionId : String) : String := API_VERSION ++ "/session/" ++ sessionId

/-- Endpoint builder `SESSION_STATUS`. -/
def SESSION_STATUS (sessionId : String) : String :=
  API_VERSION ++ "/session/" ++ sessionId ++ "/status"

end API_ENDPOINTS

/-! ## Client-side upload gate (`FileUploader`, `beforeUpload`) -/

/-- The fields of a browser `File` object that `beforeUpload` inspects:
`name`, MIME `type`, and `size` in bytes. -/
structure JsFile where
  name : String
  type : String
  size : ℚ
deriving DecidableEq, Repr

/-- Embedding of the JavaScript `String.prototype.endsWith`: a
character-level suffix test. -/
def jsEndsWith (s : String) (sfx : String) : Bool :=
  sfx.data.isSuffixOf s.data

/-- The `beforeUpload` gate: reject non-CSV files (MIME type not
`text/csv` and name not ending in `.csv`), then reject files whose
`size / 1024 / 1024` is not below 50; accept everything else. -/
def beforeUpload (file : JsFile) : Bool :=
  let isCSV := file.type = "text/csv" || jsEndsWith file.name ".csv"
  if !isCSV then
    false
  else
    let isLt50M := decide (file.size / 1024 / 1024 < 50)
    if !isLt50M then
      false
    else
      true

/-! ## StatisticsEngine (spec-modelled) -/

/-- Modelled from the spec: the linear-interpolation step of the
StatisticsEngine (backend code absent from the sources). For a value list
`v` and a fractional index `t`, the result interpolates between the two
order statistics bracketing `t`: `v[⌊t⌋] + (t - ⌊t⌋) * (v[⌊t⌋+1] - v[⌊t⌋])`,
the out-of-range upper neighbour falling back to `v[⌊t⌋]`. -/
def interpIdx (v : List ℚ) (t : ℚ) : ℚ :=
  v.getD (⌊t⌋).toNat 0 +
    (t - ⌊t⌋) * (v.getD ((⌊t⌋).toNat + 1) (v.getD (⌊t⌋).toNat 0) - v.getD (⌊t⌋).toNat 0)

/-- Modelled from the spec: the standard linear percentile method — for a
sorted list of length `n`, the percentile at rank `p` (as a fraction in
`[0,1]`) sits at fractional index `p * (n - 1)`. -/
def percentileOf (v : List ℚ) (p : ℚ) : ℚ :=
  interpIdx v (p * ((v.length : ℚ) - 1))

/-- Modelled from the spec: the defined Y value a series contributes at
master-timeline point `t` — present exactly when the series' local
`x_values` contains `t` and the cell there is defined. -/
def valueAt (s : SeriesData) (t : ℤ) : Option ℚ :=
  match s.x_values.findIdx? (fun x => x = t) with
  | none => none
  | some i => if s.count_stat.getD i false then s.y_values.getD i none else none

/-- Modelled from the spec: the defined Y values collected across all
series at master-timeline point `t`. -/
def collectAt (series : List SeriesData) (t : ℤ) : List ℚ :=
  series.filterMap (fun s => valueAt s t)

/-- Modelled from the spec: StatisticsEngine at one timeline point — sort
the collected values and read P10/P50/P90 off the linear-interpolation
percentile; all three are undefined when no series has data at `t`. -/
def statsAt (series : List SeriesData) (t : ℤ) : Option (ℚ × ℚ × ℚ) :=
  let vs := collectAt series t
  if vs.isEmpty then none
  else
    let sorted := List.insertionSort (fun a b => a ≤ b) vs
    some (percentileOf sorted (1 / 10), percentileOf sorted (1 / 2), percentileOf sorted (9 / 10))

/-- Modelled from the spec: the three percentile sequences aligned 1:1
with the master timeline. -/
def computeStatistics (series : List SeriesData) (timeline : List ℤ) : StatisticsData :=
  { p10 := timeline.map (fun t => (statsAt series t).map (fun q => q.1))
    p50 := timeline.map (fun t => (statsAt series t).map (fun q => q.2.1))
    p90 := timeline.map (fun t => (statsAt series t).map (fun q => q.2.2)) }

/-- Modelled from the spec: the master timeline — the sorted union of all
distinct day offsets across a session's series. -/
def masterTimeline (series : List SeriesData) : List ℤ :=
  List.insertionSort (fun a b => a ≤ b) ((series.map (fun s => s.x_values)).flatten.dedup)

/-! ## ChartSpecBuilder (spec-modelled) -/

/-- One renderer-agnostic trace of the chart descriptor: `name`, `x`, `y`
(`none` preserved as a visual gap), a line-style string, and a mode. -/
structure Trace where
  name : String
  x : List ℤ
  y : List (Option ℚ)
  line : String
  mode : String
deriving DecidableEq, Repr

/-- Chart layout: title, axis labels, fixed default width/height, and the
`show_legend` rendering hint. -/
structure Layout where
  title : String
  xaxis_title : String
  yaxis_title : String
  width : ℕ
  height : ℕ
  show_legend : Bool
deriving DecidableEq, Repr

/-- The renderer-agnostic chart description: traces plus layout. -/
structure ChartDescriptor where
  traces : List Trace
  layout : Layout
deriving DecidableEq, Repr

/-- Modelled from the spec: the fixed palette from which colors not
explicitly set are assigned deterministically by series position. -/
def palette : List String :=
  ["#1f77b4", "#ff7f0e", "#2ca02c", "#d62728", "#9467bd",
   "#8c564b", "#e377c2", "#7f7f7f", "#bcbd22", "#17becf"]

/-- Modelled from the spec: overlay a `series_config` entry (when present)
onto a series' stored `visible`/`color`; unspecified series keep stored
values. -/
def applyOverride (cfg : Option (List SeriesConfig)) (s : SeriesData) : SeriesData :=
  match cfg with
  | none => s
  | some overrides =>
      match overrides.find? (fun o => o.name = s.name) with
      | none => s
      | some o => { s with visible := o.visible, color := o.color.orElse (fun _ => s.color) }

/-- Modelled from the spec: a color not explicitly set is assigned from
the fixed palette, indexed by the series' position. -/
def resolveColor (i : ℕ) (s : SeriesData) : SeriesData :=
  match s.color with
  | some _ => s
  | none => { s with color := some (palette.getD (i % palette.length) "#000000") }

/-- Modelled from the spec: the effective series set — overrides overlaid
and palette colors resolved by position. -/
def effectiveSeries (d : ProcessedData) (cfg : ChartConfig) : List SeriesData :=
  d.series.enum.map (fun p => resolveColor p.1 (applyOverride cfg.series_config p.2))

/-- Modelled from the spec: the effective visible series, in order. -/
def visibleSeriesOf (d : ProcessedData) (cfg : ChartConfig) : List SeriesData :=
  (effectiveSeries d cfg).filter (fun s => s.visible)

/-- Modelled from the spec: running sums of the defined `y_values`
starting from `acc`; an undefined point contributes a zero increment and
does not reset the running total. -/
def cumFrom (acc : ℚ) : List (Option ℚ) → List ℚ
  | [] => []
  | y :: rest => (acc + y.getD 0) :: cumFrom (acc + y.getD 0) rest

/-- Modelled from the spec: the `cumulative` trace values — `y[i]` is the
running sum of all defined `y_values[0..i]`. -/
def cumulativeY (ys : List (Option ℚ)) : List ℚ :=
  cumFrom 0 ys

/-- Modelled from the spec: one trace per visible series — `line` keeps
the nullable values (gaps preserved), `cumulative` takes running sums. -/
def seriesTrace (ct : ChartType) (s : SeriesData) : Trace :=
  match ct with
  | .line =>
      { name := s.name, x := s.x_values, y := s.y_values,
        line := s.color.getD "", mode := "lines" }
  | .cumulative =>
      { name := s.name, x := s.x_values, y := (cumulativeY s.y_values).map some,
        line := s.color.getD "", mode := "lines" }

/-- Modelled from the spec: fixed, non-configurable colors for the
percentile overlay traces. -/
def statisticsColorsDefault : StatisticsColors :=
  { p10 := "#2ecc71", p50 := "#e67e22", p90 := "#e74c3c" }

/-- Modelled from the spec: an overlay trace over the master timeline. -/
def statTrace (nm : String) (c : String) (tl : List ℤ) (vals : List (Option ℚ)) : Trace :=
  { name := nm, x := tl, y := vals, line := c, mode := "lines" }

/-- Modelled from the spec: how many series have a defined value at
master-timeline point `t`. -/
def definedCountAt (series : List SeriesData) (t : ℤ) : ℕ :=
  (series.filter (fun s =>
    match s.x_values.findIdx? (fun x => x = t) with
    | some i => s.count_stat.getD i false
    | none => false)).length

/-- Modelled from the spec: the fixed default layout, the `show_legend`
flag being the only input-dependent part. -/
def defaultLayout (showLegend : Bool) : Layout :=
  { title := "Data Insights", xaxis_title := "Days", yaxis_title := "Value",
    width := 800, height := 600, show_legend := showLegend }

/-- Modelled from the spec: ChartSpecBuilder (backend code absent from the
sources) — one trace per effective visible series, percentile and
defined-point overlay traces appended when the corresponding flag is set,
plus the default layout. -/
def buildChart (d : ProcessedData) (cfg : ChartConfig) : ChartDescriptor :=
  let base := (visibleSeriesOf d cfg).map (seriesTrace cfg.chart_type)
  let tl := masterTimeline d.series
  let o10 := if cfg.show_p10 then
    [statTrace "P10" statisticsColorsDefault.p10 tl d.statistics.p10] else []
  let o50 := if cfg.show_p50 then
    [statTrace "P50" statisticsColorsDefault.p50 tl d.statistics.p50] else []
  let o90 := if cfg.show_p90 then
    [statTrace "P90" statisticsColorsDefault.p90 tl d.statistics.p90] else []
  let odp := if cfg.show_defined_points then
    [statTrace "Defined points" "#7f8c8d" tl
      (tl.map (fun t => some ((definedCountAt d.series t : ℚ))))] else []
  { traces := base ++ o10 ++ o50 ++ o90 ++ odp
    layout := defaultLayout cfg.show_legend }

/-! ## CSVIngestor and SeriesAligner (spec-modelled) -/

/-- Modelled from the spec: the error taxonomy of CSVIngestor — an empty
file, an unpaired trailing column, or no usable numeric Y data at all. -/
inductive ValidationError where
  | emptyFile
  | unpairedColumn
  | noNumericData
deriving DecidableEq, Repr

/-- Modelled from the spec: a tokenized CSV — a header row of strings and
data rows whose cells either parsed as a number or did not (`none`). -/
structure CsvInput where
  header : List String
  rows : List (List (Option ℚ))
deriving DecidableEq, Repr

/-- Modelled from the spec: extract one column pair — a row whose X cell
is numeric is retained with day offset `conv x` (months-to-days rounding
is the abstract `conv`); a non-numeric Y cell is recorded as undefined
rather than aborting; a row with a non-numeric X cell is dropped. -/
def pairPoints (conv : ℚ → ℤ) (xIdx yIdx : ℕ) (rows : List (List (Option ℚ))) :
    List (ℤ × Option ℚ × Bool) :=
  rows.filterMap (fun row =>
    match row.getD xIdx none with
    | none => none
    | some xv =>
        let y := row.getD yIdx none
        some (conv xv, y, y.isSome))

/-- The day offsets of a point list. -/
def dayKeys (pts : List (ℤ × Option ℚ × Bool)) : List ℤ :=
  pts.map (fun p => p.1)

/-- Modelled from the spec: two rows converting to the same day within one
series collapse to the later row's value (last-write-wins). -/
def dedupLast : List (ℤ × Option ℚ × Bool) → List (ℤ × Option ℚ × Bool)
  | [] => []
  | p :: rest =>
      if rest.any (fun q => q.1 = p.1) then dedupLast rest else p :: dedupLast rest

/-- Modelled from the spec: SeriesAligner output for one series — collapse
duplicate days, sort by day offset, and project the three aligned
sequences; `color` unassigned, `visible` defaulting to true. -/
def alignSeries (nm : String) (pts : List (ℤ × Option ℚ × Bool)) : SeriesData :=
  let sorted := List.insertionSort (fun a b => a.1 ≤ b.1) (dedupLast pts)
  { name := nm, x_values := sorted.map (fun p => p.1),
    y_values := sorted.map (fun p => p.2.1),
    count_stat := sorted.map (fun p => p.2.2),
    color := none, visible := true }

/-- Modelled from the spec: CSVIngestor plus SeriesAligner (backend code
absent from the sources) — columns must occur in pairs (X then Y), the
series name comes from the Y column's header, and a file with no numeric
Y value in any pair is rejected. -/
def ingest (conv : ℚ → ℤ) (input : CsvInput) : Except ValidationError (List SeriesData) :=
  if input.header.length = 0 then .error .emptyFile
  else if input.header.length % 2 ≠ 0 then .error .unpairedColumn
  else
    let series := (List.range (input.header.length / 2)).map (fun i =>
      alignSeries (input.header.getD (2 * i + 1) "")
        (pairPoints conv (2 * i) (2 * i + 1) input.rows))
    if series.all (fun s => s.count_stat.all (fun b => !b)) then .error .noNumericData
    else .ok series

/-- The series stored in a session state; empty when no data is present. -/
def storedSeries (st : SessionState) : List SeriesData :=
  match st.processedData with
  | none => []
  | some d => d.series

/-- A concrete session state used by witnesses: one stored series "A". -/
def sampleSessionState : SessionState :=
  { sessionId := some "sid"
    processedData := some
      { session_id := "sid"
        series := [{ name := "A", x_values := [], y_values := [], count_stat := [],
                     color := none, visible := true }]
        statistics := { p10 := [], p50 := [], p90 := [] }
        original_filename := "f.csv"
        created_at := "t" }
    isUploading := false
    uploadError := none }

/-! ## Helper lemmas -/

theorem updateFirst_of_forall_not (p : α → Bool) (f : α → α) (l : List α)
    (h : ∀ a ∈ l, p a = false) : updateFirst p f l = l := by
  induction l with
  | nil => rfl
  | cons a as ih =>
      have ha := h a (List.mem_cons_self a as)
      simp [updateFirst, ha, ih (fun b hb => h b (List.mem_cons.mpr (Or.inr hb)))]

theorem updateFirst_length (p : α → Bool) (f : α → α) (l : List α) :
    (updateFirst p f l).length = l.length := by
  induction l with
  | nil => rfl
  | cons a as ih => by_cases hp : p a <;> simp [updateFirst, hp, ih]

theorem updateFirst_getElem?_ne (p : α → Bool) (f : α → α) (l : List α) (j : ℕ)
    (hj : j ≠ l.findIdx p) : (updateFirst p f l)[j]? = l[j]? := by
  induction l generalizing j with
  | nil => rfl
  | cons a as ih =>
      by_cases hp : p a
      · have h0 : (a :: as).findIdx p = 0 := by simp [List.findIdx_cons, hp]
        cases j with
        | zero => exact absurd h0.symm hj
        | succ j' => simp [updateFirst, hp]
      · have h1 : (a :: as).findIdx p = as.findIdx p + 1 := by
          simp [List.findIdx_cons, hp]
        cases j with
        | zero => simp [updateFirst, hp]
        | succ j' =>
            have hj' : j' ≠ as.findIdx p := by
              intro hEq
              exact hj (by rw [h1, hEq])
            simp [updateFirst, hp, ih j' hj']

theorem updateFirst_getElem?_findIdx (p : α → Bool) (f : α → α) (l : List α)
    (h : l.any p = true) :
    (updateFirst p f l)[l.findIdx p]? = (l[l.findIdx p]?).map f := by
  induction l with
  | nil => simp at h
  | cons a as ih =>
      by_cases hp : p a
      · simp [updateFirst, hp, List.findIdx_cons]
      · have h' : as.any p = true := by simpa [hp] using h
        simp [updateFirst, hp, List.findIdx_cons, ih h']

theorem upd_vis_isUploading (st : SessionState) (nm : String) (v : Bool) :
    (updateSeriesVisibility st nm v).isUploading = st.isUploading := by
  cases hd : st.processedData <;> simp [updateSeriesVisibility, hd]

theorem upd_vis_uploadError (st : SessionState) (nm : String) (v : Bool) :
    (updateSeriesVisibility st nm v).uploadError = st.uploadError := by
  cases hd : st.processedData <;> simp [updateSeriesVisibility, hd]

theorem upd_col_isUploading (st : SessionState) (nm : String) (c : String) :
    (updateSeriesColor st nm c).isUploading = st.isUploading := by
  cases hd : st.processedData <;> simp [updateSeriesColor, hd]

theorem upd_col_uploadError (st : SessionState) (nm : String) (c : String) :
    (updateSeriesColor st nm c).uploadError = st.uploadError := by
  cases hd : st.processedData <;> simp [updateSeriesColor, hd]

/-! ## Claim theorems -/

/-- C7: for every session-id string `s`, each API endpoint builder returns
exactly the documented path with the session id substituted under the
versioned prefix `/api/v1`. -/
theorem api_endpoint_paths (s : String) :
    API_ENDPOINTS.UPLOAD = "/api/v1/upload/" ∧
    API_ENDPOINTS.DATA s = "/api/v1/data/" ++ s ∧
    API_ENDPOINTS.CHART_GENERATE = "/api/v1/chart/generate" ∧
    API_ENDPOINTS.CHART_PREVIEW s = "/api/v1/chart/preview/" ++ s ∧
    API_ENDPOINTS.EXPORT s = "/api/v1/export/" ++ s ∧
    API_ENDPOINTS.EXPORT_CSV s = "/api/v1/export/csv/" ++ s ∧
    API_ENDPOINTS.EXPORT_HTML s = "/api/v1/export/html/" ++ s ∧
    API_ENDPOINTS.SESSION_DELETE s = "/api/v1/session/" ++ s ∧
    API_ENDPOINTS.SESSION_STATUS s = "/api/v1/session/" ++ s ++ "/status" :=
  ⟨rfl, rfl, rfl, rfl, rfl, rfl, rfl, rfl, rfl⟩

theorem sizeDiv_lt_iff (q : ℚ) : q / 1024 / 1024 < 50 ↔ q < 50 * 1024 * 1024 := by
  rw [div_lt_iff₀ (by norm_num : (0:ℚ) < 1024), div_lt_iff₀ (by norm_num : (0:ℚ) < 1024)]

/-- C8: the client-side upload gate rejects every file of size at least
`50*1024*1024` bytes, rejects every file that is neither of MIME type
`text/csv` nor named `*.csv`, and accepts every CSV file strictly below
the size bound. -/
theorem beforeUpload_gate (f : JsFile) :
    (50 * 1024 * 1024 ≤ f.size → beforeUpload f = false) ∧
    (¬ f.type = "text/csv" → jsEndsWith f.name ".csv" = false → beforeUpload f = false) ∧
    ((f.type = "text/csv" ∨ jsEndsWith f.name ".csv" = true) →
      f.size < 50 * 1024 * 1024 → beforeUpload f = true) := by
  refine ⟨?_, ?_, ?_⟩
  · intro hsize
    have hge : ¬ f.size / 1024 / 1024 < 50 := by
      rw [sizeDiv_lt_iff]
      linarith
    by_cases hty : f.type = "text/csv" <;> by_cases hend : jsEndsWith f.name ".csv" = true <;>
      simp [beforeUpload, hty, hend, hge]
  · intro hty hend
    simp [beforeUpload, hty, hend]
  · intro hcsv hsize
    have hlt : f.size / 1024 / 1024 < 50 := (sizeDiv_lt_iff f.size).mpr hsize
    rcases hcsv with hty | hend
    · simp [beforeUpload, hty, hlt]
    · simp [beforeUpload, hend, hlt]

/-- Witness for C8 at three concrete files: one oversized, one non-CSV,
and one small CSV. -/
theorem beforeUpload_gate_witness :
    beforeUpload ⟨"big.csv", "text/csv", 52428800⟩ = false ∧
    beforeUpload ⟨"notes.txt", "text/plain", 10⟩ = false ∧
    beforeUpload ⟨"data.csv", "text/csv", 10⟩ = true :=
  ⟨(beforeUpload_gate ⟨"big.csv", "text/csv", 52428800⟩).1 (by norm_num),
   (beforeUpload_gate ⟨"notes.txt", "text/plain", 10⟩).2.1 (by decide) (by decide),
   (beforeUpload_gate ⟨"data.csv", "text/csv", 10⟩).2.2 (Or.inl rfl) (by norm_num)⟩

/-- C2: the chart-descriptor builder is deterministic — equal
`ProcessedData` and `ChartConfig` inputs yield equal trace lists and
equal layout. -/
theorem buildChart_deterministic (d₁ d₂ : ProcessedData) (c₁ c₂ : ChartConfig)
    (hd : d₁ = d₂) (hc : c₁ = c₂) :
    (buildChart d₁ c₁).traces = (buildChart d₂ c₂).traces ∧
    (buildChart d₁ c₁).layout = (buildChart d₂ c₂).layout := by
  subst hd
  subst hc
  exact ⟨rfl, rfl⟩

/-- Witness for C2 at a concrete input. -/
theorem buildChart_deterministic_witness :
    (buildChart ⟨"s", [], ⟨[], [], []⟩, "f.csv", "now"⟩
        ⟨"s", ChartType.line, true, false, false, false, false, none⟩).traces =
      (buildChart ⟨"s", [], ⟨[], [], []⟩, "f.csv", "now"⟩
        ⟨"s", ChartType.line, true, false, false, false, false, none⟩).traces ∧
    (buildChart ⟨"s", [], ⟨[], [], []⟩, "f.csv", "now"⟩
        ⟨"s", ChartType.line, true, false, false, false, false, none⟩).layout =
      (buildChart ⟨"s", [], ⟨[], [], []⟩, "f.csv", "now"⟩
        ⟨"s", ChartType.line, true, false, false, false, false, none⟩).layout :=
  buildChart_deterministic _ _ _ _ rfl rfl

/-- C5: a series-visibility or series-color update naming a series that
does not occur among the stored series leaves the state unchanged. -/
theorem update_unknown_series_noop (st : SessionState) (nm : String) (vis : Bool) (c : String)
    (h : ∀ s ∈ storedSeries st, ¬ s.name = nm) :
    updateSeriesVisibility st nm vis = st ∧ updateSeriesColor st nm c = st := by
  cases hd : st.processedData with
  | none => constructor <;> simp [updateSeriesVisibility, updateSeriesColor, hd]
  | some d =>
      have hser : ∀ s ∈ d.series, ¬ s.name = nm := by
        intro s hmem
        exact h s (by simp [storedSeries, hd, hmem])
      have hfix : ∀ (g : SeriesData → SeriesData),
          updateFirst (fun s => s.name = nm) g d.series = d.series := by
        intro g
        exact updateFirst_of_forall_not _ _ _ (fun a ha => by simp [hser a ha])
      constructor
      · simp only [updateSeriesVisibility, hd, hfix, withSeries]
        rw [← hd]
      · simp only [updateSeriesColor, hd, hfix, withSeries]
        rw [← hd]

/-- Witness for C5: updating a name that is not stored is a no-op. -/
theorem update_unknown_series_noop_witness :
    updateSeriesVisibility sampleSessionState "B" false = sampleSessionState ∧
    updateSeriesColor sampleSessionState "B" "#fff" = sampleSessionState :=
  update_unknown_series_noop sampleSessionState "B" false "#fff" (by decide)

/-- C9: each chart-settings toggle is an involution and changes only its
own flag, every other field of the chart state being unchanged. -/
theorem chart_toggles_involutive (st : ChartState) :
    (toggleLegend (toggleLegend st) = st ∧
      (toggleLegend st).settings.showDefinedPoints = st.settings.showDefinedPoints ∧
      (toggleLegend st).settings.showP10 = st.settings.showP10 ∧
      (toggleLegend st).settings.showP50 = st.settings.showP50 ∧
      (toggleLegend st).settings.showP90 = st.settings.showP90 ∧
      (toggleLegend st).settings.chartType = st.settings.chartType ∧
      (toggleLegend st).chartData = st.chartData ∧
      (toggleLegend st).chartConfig = st.chartConfig ∧
      (toggleLegend st).statisticsColors = st.statisticsColors ∧
      (toggleLegend st).isGenerating = st.isGenerating ∧
      (toggleLegend st).generateError = st.generateError) ∧
    (toggleDefinedPoints (toggleDefinedPoints st) = st ∧
      (toggleDefinedPoints st).settings.showLegend = st.settings.showLegend ∧
      (toggleDefinedPoints st).settings.showP10 = st.settings.showP10 ∧
      (toggleDefinedPoints st).settings.showP50 = st.settings.showP50 ∧
      (toggleDefinedPoints st).settings.showP90 = st.settings.showP90 ∧
      (toggleDefinedPoints st).settings.chartType = st.settings.chartType ∧
      (toggleDefinedPoints st).chartData = st.chartData ∧
      (toggleDefinedPoints st).chartConfig = st.chartConfig ∧
      (toggleDefinedPoints st).statisticsColors = st.statisticsColors ∧
      (toggleDefinedPoints st).isGenerating = st.isGenerating ∧
      (toggleDefinedPoints st).generateError = st.generateError) ∧
    (toggleP10 (toggleP10 st) = st ∧
      (toggleP10 st).settings.showLegend = st.settings.showLegend ∧
      (toggleP10 st).settings.showDefinedPoints = st.settings.showDefinedPoints ∧
      (toggleP10 st).settings.showP50 = st.settings.showP50 ∧
      (toggleP10 st).settings.showP90 = st.settings.showP90 ∧
      (toggleP10 st).settings.chartType = st.settings.chartType ∧
      (toggleP10 st).chartData = st.chartData ∧
      (toggleP10 st).chartConfig = st.chartConfig ∧
      (toggleP10 st).statisticsColors = st.statisticsColors ∧
      (toggleP10 st).isGenerating = st.isGenerating ∧
      (toggleP10 st).generateError = st.generateError) ∧
    (toggleP50 (toggleP50 st) = st ∧
      (toggleP50 st).settings.showLegend = st.settings.showLegend ∧
      (toggleP50 st).settings.showDefinedPoints = st.settings.showDefinedPoints ∧
      (toggleP50 st).settings.showP10 = st.settings.showP10 ∧
      (toggleP50 st).settings.showP90 = st.settings.showP90 ∧
      (toggleP50 st).settings.chartType = st.settings.chartType ∧
      (toggleP50 st).chartData = st.chartData ∧
      (toggleP50 st).chartConfig = st.chartConfig ∧
      (toggleP50 st).statisticsColors = st.statisticsColors ∧
      (toggleP50 st).isGenerating = st.isGenerating ∧
      (toggleP50 st).generateError = st.generateError) ∧
    (toggleP90 (toggleP90 st) = st ∧
      (toggleP90 st).settings.showLegend = st.settings.showLegend ∧
      (toggleP90 st).settings.showDefinedPoints = st.settings.showDefinedPoints ∧
      (toggleP90 st).settings.showP10 = st.settings.showP10 ∧
      (toggleP90 st).settings.showP50 = st.settings.showP50 ∧
      (toggleP90 st).settings.chartType = st.settings.chartType ∧
      (toggleP90 st).chartData = st.chartData ∧
      (toggleP90 st).chartConfig = st.chartConfig ∧
      (toggleP90 st).statisticsColors = st.statisticsColors ∧
      (toggleP90 st).isGenerating = st.isGenerating ∧
      (toggleP90 st).generateError = st.generateError) := by
  simp [toggleLegend, toggleDefinedPoints, toggleP10, toggleP50, toggleP90,
    withSettings, Bool.not_not]

/-- C6: a series-visibility or series-color update naming an existing
series changes only the named (first-matching) series' targeted field;
the other state fields, the record's identity fields and statistics,
every other series, and all remaining fields of the named series are
unchanged. -/
theorem update_named_series_frame (st : SessionState) (d : ProcessedData)
    (nm : String) (vis : Bool) (c : String)
    (hd : st.processedData = some d)
    (hocc : d.series.any (fun s => s.name = nm) = true) :
    ((updateSeriesVisibility st nm vis).sessionId = st.sessionId ∧
      (updateSeriesVisibility st nm vis).isUploading = st.isUploading ∧
      (updateSeriesVisibility st nm vis).uploadError = st.uploadError ∧
      ∃ dv, (updateSeriesVisibility st nm vis).processedData = some dv ∧
        dv.session_id = d.session_id ∧
        dv.statistics = d.statistics ∧
        dv.original_filename = d.original_filename ∧
        dv.created_at = d.created_at ∧
        dv.series.length = d.series.length ∧
        (∀ j, j ≠ d.series.findIdx (fun s => s.name = nm) → dv.series[j]? = d.series[j]?) ∧
        dv.series[d.series.findIdx (fun s => s.name = nm)]? =
          (d.series[d.series.findIdx (fun s => s.name = nm)]?).map (setVisible vis)) ∧
    ((updateSeriesColor st nm c).sessionId = st.sessionId ∧
      (updateSeriesColor st nm c).isUploading = st.isUploading ∧
      (updateSeriesColor st nm c).uploadError = st.uploadError ∧
      ∃ dc, (updateSeriesColor st nm c).processedData = some dc ∧
        dc.session_id = d.session_id ∧
        dc.statistics = d.statistics ∧
        dc.original_filename = d.original_filename ∧
        dc.created_at = d.created_at ∧
        dc.series.length = d.series.length ∧
        (∀ j, j ≠ d.series.findIdx (fun s => s.name = nm) → dc.series[j]? = d.series[j]?) ∧
        dc.series[d.series.findIdx (fun s => s.name = nm)]? =
          (d.series[d.series.findIdx (fun s => s.name = nm)]?).map (setColor c)) := by
  have hv : updateSeriesVisibility st nm vis = { st with processedData := some (withSeries d
      (updateFirst (fun s => s.name = nm) (setVisible vis) d.series)) } := by
    simp only [updateSeriesVisibility, hd]
  have hcol : updateSeriesColor st nm c = { st with processedData := some (withSeries d
      (updateFirst (fun s => s.name = nm) (setColor c) d.series)) } := by
    simp only [updateSeriesColor, hd]
  rw [hv, hcol]
  refine ⟨⟨rfl, rfl, rfl,
      withSeries d (updateFirst (fun s => s.name = nm) (setVisible vis) d.series),
      rfl, rfl, rfl, rfl, rfl, ?_, ?_, ?_⟩,
    ⟨rfl, rfl, rfl,
      withSeries d (updateFirst (fun s => s.name = nm) (setColor c) d.series),
      rfl, rfl, rfl, rfl, rfl, ?_, ?_, ?_⟩⟩
  · simp [withSeries, updateFirst_length]
  · intro j hj
    simpa [withSeries] using updateFirst_getElem?_ne _ (setVisible vis) d.series j hj
  · simpa [withSeries] using updateFirst_getElem?_findIdx _ (setVisible vis) d.series hocc
  · simp [withSeries, updateFirst_length]
  · intro j hj
    simpa [withSeries] using updateFirst_getElem?_ne _ (setColor c) d.series j hj
  · simpa [withSeries] using updateFirst_getElem?_findIdx _ (setColor c) d.series hocc

/-- Witness for C6: updating the stored series "A" in the sample state. -/
theorem update_named_series_frame_witness :
    (updateSeriesVisibility sampleSessionState "A" false).sessionId =
      sampleSessionState.sessionId ∧
    (updateSeriesColor sampleSessionState "A" "#fff").sessionId =
      sampleSessionState.sessionId :=
  ⟨(update_named_series_frame sampleSessionState _ "A" false "#fff" rfl (by decide)).1.1,
   (update_named_series_frame sampleSessionState _ "A" false "#fff" rfl (by decide)).2.1⟩

/-- C10: in every reachable session-slice state, an in-flight upload
implies the absence of a stored upload error. -/
theorem uploading_implies_no_error {st : SessionState} (h : ReachableSession st) :
    st.isUploading = true → st.uploadError = none := by
  induction h with
  | init => intro hup; simp [initialSessionState] at hup
  | @step st a hr ih =>
      cases a with
      | actSetSessionId v => simpa [sessionReduce, setSessionId] using ih
      | actSetProcessedData v => simpa [sessionReduce, setProcessedData] using ih
      | actUpdateSeriesVisibility n v =>
          intro hup
          simp only [sessionReduce] at hup ⊢
          rw [upd_vis_uploadError]
          rw [upd_vis_isUploading] at hup
          exact ih hup
      | actUpdateSeriesColor n c =>
          intro hup
          simp only [sessionReduce] at hup ⊢
          rw [upd_col_uploadError]
          rw [upd_col_isUploading] at hup
          exact ih hup
      | actResetSession => simp [sessionReduce, resetSession]
      | uploadFilePending => simp [sessionReduce]
      | uploadFileFulfilled sid d => simp [sessionReduce]
      | uploadFileRejected err => simp [sessionReduce]
      | deleteSessionPending => simpa [sessionReduce] using ih
      | deleteSessionFulfilled => simp [sessionReduce]
      | deleteSessionRejected err => simpa [sessionReduce] using ih

/-- Witness for C10: the state right after `uploadFile.pending` is
uploading and carries no upload error. -/
theorem uploading_implies_no_error_witness :
    (sessionReduce initialSessionState SessionAction.uploadFilePending).uploadError = none :=
  uploading_implies_no_error
    (ReachableSession.step SessionAction.uploadFilePending ReachableSession.init) rfl

theorem mem_dayKeys_dedupLast {k : ℤ} {l : List (ℤ × Option ℚ × Bool)}
    (h : k ∈ dayKeys (dedupLast l)) : k ∈ dayKeys l := by
  induction l with
  | nil => simpa [dedupLast] using h
  | cons p rest ih =>
      by_cases hp : rest.any (fun q => q.1 = p.1) = true
      · have hmem := ih (by simpa [dedupLast, hp] using h)
        simp only [dayKeys, List.map_cons, List.mem_cons]
        exact Or.inr (by simpa [dayKeys] using hmem)
      · rcases (by simpa [dedupLast, hp, dayKeys] using h : k = p.1 ∨ k ∈ dayKeys (dedupLast rest)) with
          hk | hk
        · simp [dayKeys, hk]
        · simp only [dayKeys, List.map_cons, List.mem_cons]
          exact Or.inr (by simpa [dayKeys] using ih hk)

theorem nodup_dayKeys_dedupLast (l : List (ℤ × Option ℚ × Bool)) :
    (dayKeys (dedupLast l)).Nodup := by
  induction l with
  | nil => simp [dedupLast, dayKeys]
  | cons p rest ih =>
      by_cases hp : rest.any (fun q => q.1 = p.1) = true
      · simpa [dedupLast, hp] using ih
      · have hnot : p.1 ∉ dayKeys rest := by
          simp only [List.any_eq_true] at hp
          push_neg at hp
          simp only [dayKeys, List.mem_map]
          rintro ⟨q, hq, hEq⟩
          exact hp q hq (by simpa using hEq)
        have hnot' : p.1 ∉ dayKeys (dedupLast rest) := fun hmem => hnot (mem_dayKeys_dedupLast hmem)
        simp only [dedupLast, hp, if_false, dayKeys, List.map_cons]
        exact List.Nodup.cons (by simpa [dayKeys] using hnot') (by simpa [dayKeys] using ih)

theorem alignSeries_invariant (nm : String) (pts : List (ℤ × Option ℚ × Bool)) :
    (alignSeries nm pts).x_values.length = (alignSeries nm pts).y_values.length ∧
    (alignSeries nm pts).y_values.length = (alignSeries nm pts).count_stat.length ∧
    (alignSeries nm pts).x_values.Nodup := by
  refine ⟨by simp [alignSeries], by simp [alignSeries], ?_⟩
  have hperm : (List.insertionSort (fun a b => a.1 ≤ b.1) (dedupLast pts)).Perm
      (dedupLast pts) := List.perm_insertionSort _ _
  have hmap := hperm.map (fun p : ℤ × Option ℚ × Bool => p.1)
  have hnodup : (dayKeys (dedupLast pts)).Nodup := nodup_dayKeys_dedupLast pts
  simp only [alignSeries]
  exact (hmap.nodup_iff).mpr (by simpa [dayKeys] using hnodup)

/-- C4: every series produced by ingestion from a valid CSV input has
`x_values`, `y_values` and `count_stat` of equal length, and its
`x_values` contains no duplicates. -/
theorem ingest_series_invariant (conv : ℚ → ℤ) (input : CsvInput)
    (ss : List SeriesData) (hok : ingest conv input = Except.ok ss) :
    ∀ s ∈ ss, s.x_values.length = s.y_values.length ∧
      s.y_values.length = s.count_stat.length ∧ s.x_values.Nodup := by
  intro s hs
  simp only [ingest] at hok
  split_ifs at hok with h1 h2 h3
  injection hok with hss
  rw [← hss] at hs
  rcases List.mem_map.mp hs with ⟨i, _, hsi⟩
  rw [← hsi]
  exact alignSeries_invariant _ _

/-- Witness for C4: a two-column CSV with one numeric row ingests into
one series satisfying the invariant. -/
theorem ingest_series_invariant_witness :
    (alignSeries "Val" (pairPoints (fun q => q.num) 0 1 [[some 0, some 10]])).x_values.length =
      (alignSeries "Val" (pairPoints (fun q => q.num) 0 1 [[some 0, some 10]])).y_values.length ∧
    (alignSeries "Val" (pairPoints (fun q => q.num) 0 1 [[some 0, some 10]])).y_values.length =
      (alignSeries "Val"
        (pairPoints (fun q => q.num) 0 1 [[some 0, some 10]])).count_stat.length ∧
    (alignSeries "Val" (pairPoints (fun q => q.num) 0 1 [[some 0, some 10]])).x_values.Nodup :=
  ingest_series_invariant (fun q => q.num) ⟨["Month", "Val"], [[some 0, some 10]]⟩
    [alignSeries "Val" (pairPoints (fun q => q.num) 0 1 [[some 0, some 10]])] rfl
    (alignSeries "Val" (pairPoints (fun q => q.num) 0 1 [[some 0, some 10]]))
    (List.mem_singleton.mpr rfl)

theorem cumFrom_length (acc : ℚ) (ys : List (Option ℚ)) :
    (cumFrom acc ys).length = ys.length := by
  induction ys generalizing acc with
  | nil => rfl
  | cons y rest ih => simp [cumFrom, ih]

theorem cumFrom_getElem? (acc : ℚ) (ys : List (Option ℚ)) (i : ℕ) (hi : i < ys.length) :
    (cumFrom acc ys)[i]? =
      some (acc + ((ys.take (i + 1)).map (fun y => y.getD 0)).sum) := by
  induction ys generalizing acc i with
  | nil => simp at hi
  | cons y rest ih =>
      cases i with
      | zero => simp [cumFrom]
      | succ j =>
          have hj : j < rest.length := by simpa using hi
          simp [cumFrom, ih (acc + y.getD 0) j hj, add_assoc]

theorem cumFrom_getLast? (acc : ℚ) (ys : List (Option ℚ)) (h : ys ≠ []) :
    (cumFrom acc ys).getLast? = some (acc + (ys.map (fun y => y.getD 0)).sum) := by
  induction ys generalizing acc with
  | nil => exact absurd rfl h
  | cons y rest ih =>
      cases rest with
      | nil => simp [cumFrom]
      | cons z zs =>
          have hcons : cumFrom acc (y :: z :: zs) =
              (acc + y.getD 0) :: cumFrom (acc + y.getD 0) (z :: zs) := rfl
          have hzz : cumFrom (acc + y.getD 0) (z :: zs) =
              ((acc + y.getD 0) + z.getD 0) :: cumFrom ((acc + y.getD 0) + z.getD 0) zs := rfl
          rw [hcons, hzz, List.getLast?_cons_cons, ← hzz,
            ih (acc + y.getD 0) (by simp)]
          simp [add_assoc]

/-- C3: in a chart built with chart type `cumulative`, every visible
series has a trace whose value at index `i` is the sum of the defined
`y_values` at indices `0..i` (undefined entries contributing zero), and
whose last value is the sum of all defined Y values of the series. -/
theorem cumulative_trace_running_sum (d : ProcessedData) (cfg : ChartConfig)
    (hct : cfg.chart_type = ChartType.cumulative)
    (s : SeriesData) (hs : s ∈ visibleSeriesOf d cfg) :
    ∃ tr ∈ (buildChart d cfg).traces,
      tr.name = s.name ∧
      tr.y.length = s.y_values.length ∧
      (∀ i, i < s.y_values.length →
        tr.y[i]? = some (some (((s.y_values.take (i + 1)).map (fun y => y.getD 0)).sum))) ∧
      (s.y_values ≠ [] →
        tr.y.getLast? = some (some ((s.y_values.map (fun y => y.getD 0)).sum))) := by
  refine ⟨seriesTrace cfg.chart_type s, ?_, ?_, ?_, ?_, ?_⟩
  · have hbase : seriesTrace cfg.chart_type s ∈
        (visibleSeriesOf d cfg).map (seriesTrace cfg.chart_type) :=
      List.mem_map_of_mem _ hs
    simp only [buildChart]
    exact List.mem_append_left _ (List.mem_append_left _ (List.mem_append_left _
      (List.mem_append_left _ hbase)))
  · rw [hct]
    rfl
  · rw [hct]
    simp [seriesTrace, cumulativeY, cumFrom_length]
  · intro i hi
    rw [hct]
    simp only [seriesTrace, List.getElem?_map]
    rw [cumulativeY, cumFrom_getElem? 0 s.y_values i hi]
    simp
  · intro hne
    rw [hct]
    simp only [seriesTrace, List.getLast?_map]
    rw [cumulativeY, cumFrom_getLast? 0 s.y_values hne]
    simp

/-- A concrete processed record with one series, used by witnesses. -/
def sampleProcessedData : ProcessedData :=
  { session_id := "sid"
    series := [{ name := "A", x_values := [0, 1], y_values := [some 2, none],
                 count_stat := [true, false], color := some "#111111", visible := true }]
    statistics := { p10 := [], p50 := [], p90 := [] }
    original_filename := "f.csv"
    created_at := "t" }

/-- A concrete cumulative chart request, used by witnesses. -/
def sampleCumulativeConfig : ChartConfig :=
  { session_id := "sid", chart_type := ChartType.cumulative, show_legend := true,
    show_defined_points := false, show_p10 := false, show_p50 := false,
    show_p90 := false, series_config := none }

/-- Witness for C3 on a concrete one-series session. -/
theorem cumulative_trace_running_sum_witness :
    ∃ tr ∈ (buildChart sampleProcessedData sampleCumulativeConfig).traces,
      tr.name = "A" ∧
      tr.y.length = ([some 2, none] : List (Option ℚ)).length ∧
      (∀ i, i < ([some 2, none] : List (Option ℚ)).length →
        tr.y[i]? = some (some ((((
          [some 2, none] : List (Option ℚ)).take (i + 1)).map (fun y => y.getD 0)).sum))) ∧
      (([some 2, none] : List (Option ℚ)) ≠ [] →
        tr.y.getLast? = some (some ((([some 2, none] : List (Option ℚ)).map
          (fun y => y.getD 0)).sum))) :=
  cumulative_trace_running_sum sampleProcessedData sampleCumulativeConfig rfl
    { name := "A", x_values := [0, 1], y_values := [some 2, none],
      count_stat := [true, false], color := some "#111111", visible := true }
    (List.mem_singleton.mpr rfl)

theorem sorted_getD_mono {v : List ℚ} (hs : List.Sorted (fun a b => a ≤ b) v)
    {i j : ℕ} (hij : i ≤ j) (hj : j < v.length) :
    v.getD i 0 ≤ v.getD j 0 := by
  have hi : i < v.length := Nat.lt_of_le_of_lt hij hj
  rw [List.getD_eq_getElem v 0 hi, List.getD_eq_getElem v 0 hj]
  rcases Nat.lt_or_ge i j with hlt | hge
  · exact List.pairwise_iff_getElem.mp hs i j hi hj hlt
  · have : i = j := Nat.le_antisymm hij hge
    subst this
    exact le_refl _

theorem interpIdx_diff_nonneg {v : List ℚ} (hs : List.Sorted (fun a b => a ≤ b) v) (k : ℕ) :
    0 ≤ v.getD (k + 1) (v.getD k 0) - v.getD k 0 := by
  rcases Nat.lt_or_ge (k + 1) v.length with hk | hk
  · rw [List.getD_eq_getElem v _ hk]
    rw [← List.getD_eq_getElem v 0 hk]
    have := sorted_getD_mono hs (Nat.le_succ k) hk
    linarith
  · rw [List.getD_eq_default _ _ hk]
    simp

theorem le_interpIdx {v : List ℚ} (hs : List.Sorted (fun a b => a ≤ b) v) (t : ℚ) :
    v.getD (⌊t⌋).toNat 0 ≤ interpIdx v t := by
  have hfrac : 0 ≤ t - ⌊t⌋ := sub_nonneg.mpr (Int.floor_le t)
  have hd := interpIdx_diff_nonneg hs (⌊t⌋).toNat
  have hmul := mul_nonneg hfrac hd
  unfold interpIdx
  linarith

theorem interpIdx_le {v : List ℚ} (hs : List.Sorted (fun a b => a ≤ b) v) (t : ℚ) :
    interpIdx v t ≤ v.getD ((⌊t⌋).toNat + 1) (v.getD (⌊t⌋).toNat 0) := by
  have hfrac : t - ⌊t⌋ ≤ 1 := by
    have := Int.lt_floor_add_one t
    linarith
  have hd := interpIdx_diff_nonneg hs (⌊t⌋).toNat
  have hmul := mul_le_of_le_one_left hd hfrac
  unfold interpIdx
  linarith

theorem interpIdx_mono {v : List ℚ} (hs : List.Sorted (fun a b => a ≤ b) v)
    {t s : ℚ} (ht : 0 ≤ t) (hts : t ≤ s) (hsb : s ≤ (v.length : ℚ) - 1) :
    interpIdx v t ≤ interpIdx v s := by
  have hft : (0:ℤ) ≤ ⌊t⌋ := Int.floor_nonneg.mpr ht
  have hfs : (0:ℤ) ≤ ⌊s⌋ := le_trans hft (Int.floor_le_floor hts)
  have hks_lt : (⌊s⌋).toNat < v.length := by
    have h1 : ⌊s⌋ ≤ ⌊(v.length : ℚ) - 1⌋ := Int.floor_le_floor hsb
    have h2 : ((v.length : ℚ) - 1) = (((v.length : ℤ) - 1 : ℤ) : ℚ) := by push_cast; ring
    rw [h2, Int.floor_intCast] at h1
    have h3 : ⌊s⌋ < (v.length : ℤ) := by omega
    exact (Int.toNat_lt hfs).mpr h3
  have hkle : (⌊t⌋).toNat ≤ (⌊s⌋).toNat := Int.toNat_le_toNat (Int.floor_le_floor hts)
  rcases Nat.eq_or_lt_of_le hkle with hk | hk
  · have hfloor : ⌊t⌋ = ⌊s⌋ := by omega
    unfold interpIdx
    rw [hfloor]
    have hd := interpIdx_diff_nonneg hs (⌊s⌋).toNat
    have := mul_le_mul_of_nonneg_right (sub_le_sub_right hts ((⌊s⌋ : ℚ))) hd
    linarith
  · have h1 : (⌊t⌋).toNat + 1 < v.length := Nat.lt_of_le_of_lt hk hks_lt
    calc interpIdx v t
        ≤ v.getD ((⌊t⌋).toNat + 1) (v.getD (⌊t⌋).toNat 0) := interpIdx_le hs t
      _ = v.getD ((⌊t⌋).toNat + 1) 0 := by
          rw [List.getD_eq_getElem v _ h1, List.getD_eq_getElem v 0 h1]
      _ ≤ v.getD (⌊s⌋).toNat 0 := sorted_getD_mono hs hk hks_lt
      _ ≤ interpIdx v s := le_interpIdx hs s

theorem percentileOf_mono {v : List ℚ} (hs : List.Sorted (fun a b => a ≤ b) v)
    (hne : v ≠ []) {p q : ℚ} (hp : 0 ≤ p) (hpq : p ≤ q) (hq : q ≤ 1) :
    percentileOf v p ≤ percentileOf v q := by
  have hn : 1 ≤ v.length := List.length_pos.mpr hne
  have hn1 : (0:ℚ) ≤ (v.length : ℚ) - 1 := by
    have : (1:ℚ) ≤ (v.length : ℚ) := by exact_mod_cast hn
    linarith
  unfold percentileOf
  apply interpIdx_mono hs (mul_nonneg hp hn1) (mul_le_mul_of_nonneg_right hpq hn1)
  calc q * ((v.length : ℚ) - 1) ≤ 1 * ((v.length : ℚ) - 1) :=
        mul_le_mul_of_nonneg_right hq hn1
    _ = (v.length : ℚ) - 1 := one_mul _

theorem statsAt_ordered (series : List SeriesData) (t : ℤ) (a b c : ℚ)
    (h : statsAt series t = some (a, b, c)) : a ≤ b ∧ b ≤ c := by
  by_cases he : (collectAt series t).isEmpty
  · unfold statsAt at h
    simp [he] at h
  · have hchar : statsAt series t =
        some (percentileOf (List.insertionSort (fun x y => x ≤ y) (collectAt series t)) (1 / 10),
          percentileOf (List.insertionSort (fun x y => x ≤ y) (collectAt series t)) (1 / 2),
          percentileOf (List.insertionSort (fun x y => x ≤ y) (collectAt series t)) (9 / 10)) := by
      simp only [statsAt]
      rw [if_neg he]
    rw [hchar] at h
    injection h with h
    rw [Prod.mk.injEq, Prod.mk.injEq] at h
    obtain ⟨h1, h2, h3⟩ := h
    rw [← h1, ← h2, ← h3]
    have hsorted : List.Sorted (fun x y => x ≤ y)
        (List.insertionSort (fun x y => x ≤ y) (collectAt series t)) :=
      List.sorted_insertionSort _ _
    have hnil : collectAt series t ≠ [] := fun hEq => he (by simp [hEq])
    have hne : List.insertionSort (fun x y => x ≤ y) (collectAt series t) ≠ [] := by
      intro hEq
      have hlen := List.length_insertionSort (fun x y => x ≤ y) (collectAt series t)
      rw [hEq] at hlen
      exact hnil (List.length_eq_zero.mp hlen.symm)
    exact ⟨percentileOf_mono hsorted hne (by norm_num) (by norm_num) (by norm_num),
      percentileOf_mono hsorted hne (by norm_num) (by norm_num) (by norm_num)⟩

/-- C1: at every master-timeline point of a session's computed statistics
where `p10`, `p50` and `p90` are all non-null, `p10 ≤ p50 ≤ p90`. -/
theorem statistics_percentile_order (series : List SeriesData) (timeline : List ℤ)
    (i : ℕ) (a b c : ℚ)
    (h10 : (computeStatistics series timeline).p10[i]? = some (some a))
    (h50 : (computeStatistics series timeline).p50[i]? = some (some b))
    (h90 : (computeStatistics series timeline).p90[i]? = some (some c)) :
    a ≤ b ∧ b ≤ c := by
  simp only [computeStatistics, List.getElem?_map] at h10 h50 h90
  cases ht : timeline[i]? with
  | none =>
      rw [ht] at h10
      simp at h10
  | some t =>
      rw [ht] at h10 h50 h90
      simp only [Option.map_some', Option.some.injEq] at h10 h50 h90
      cases hst : statsAt series t with
      | none =>
          rw [hst] at h10
          simp at h10
      | some trip =>
          rw [hst] at h10 h50 h90
          simp only [Option.map_some', Option.some.injEq] at h10 h50 h90
          obtain ⟨x, y, z⟩ := trip
          dsimp only at h10 h50 h90
          rw [← h10, ← h50, ← h90]
          exact statsAt_ordered series t x y z hst

/-- Witness for C1 on a one-series session with one defined point: all
three percentiles evaluate to the single value 10. -/
theorem statistics_percentile_order_witness : (10:ℚ) ≤ 10 ∧ (10:ℚ) ≤ 10 :=
  statistics_percentile_order
    [{ name := "A", x_values := [0], y_values := [some 10], count_stat := [true],
       color := none, visible := true }] [0] 0 10 10 10
    (by with_unfolding_all rfl) (by with_unfolding_all rfl) (by with_unfolding_all rfl)

end DataInsights
